import Mathlib

/-
Verification of the otel-demo-service control plane and simulators.

Shallow embedding of the relevant parts of src/app.py (scenario supervisor and
fault pattern store), src/scenarios/single.py (single-span simulator loop) and
src/scenarios/astroshop.py (astroshop call-graph simulator).

File-system state is modelled explicitly (a map from path to file content plus a
writability oracle), process liveness and wait outcomes are modelled as oracle
inputs, and the JSON dict stored in a control file is modelled as an ordered
association list with Python-dict update semantics.
-/

namespace OtelDemo

/-- JSON-ish value stored in a control record: boolean pattern flag or number. -/
inductive JVal
  | b (v : Bool)
  | n (v : Int)
deriving DecidableEq, Repr

/-- the parsed contents of one control file: a Python dict, modelled as an
ordered association list with unique keys by construction of the operations. -/
abbrev PatternState := List (String × JVal)

/-- association-list lookup: first binding of the key (Python dict get). -/
def alGet {α : Type} : List (String × α) → String → Option α
  | [], _ => none
  | (k2, v) :: rest, k => if k2 = k then some v else alGet rest k

/-- association-list update: Python dict assignment d[k] = v — replace the
binding in place if the key exists, else append at the end (insertion order). -/
def alSet {α : Type} : List (String × α) → String → α → List (String × α)
  | [], k, v => [(k, v)]
  | (k2, v2) :: rest, k, v =>
      if k2 = k then (k2, v) :: rest else (k2, v2) :: alSet rest k v

/-- association-list deletion: Python del d[k]. -/
def alRemove {α : Type} : List (String × α) → String → List (String × α)
  | [], _ => []
  | (k2, v) :: rest, k =>
      if k2 = k then alRemove rest k else (k2, v) :: alRemove rest k

/-- contents of one file path: absent, present but unparsable as a JSON dict,
or a parsed record. -/
inductive FileContent
  | absent
  | corrupt
  | record (st : PatternState)

/-- the file-system state visible to supervisor and simulator processes:
content per path, and whether opening a path for writing succeeds. -/
structure FS where
  files : String → FileContent
  writable : String → Bool

/-- get_control_file from src/app.py. -/
def get_control_file (scenario_name : String) : String :=
  ".scenario_control_" ++ scenario_name ++ ".json"

/-- load_patterns from src/app.py: returns the parsed record; an absent file
yields the empty dict, and any parse exception is swallowed, also yielding
the empty dict. -/
def load_patterns (fs : FS) (scenario_name : String) : PatternState :=
  match fs.files (get_control_file scenario_name) with
  | FileContent.record st => st
  | FileContent.corrupt => []
  | FileContent.absent => []

/-- save_patterns from src/app.py, data effect: writes the serialized dict to
the control file, returning True on success and False when the write raises. -/
def save_patterns (fs : FS) (scenario_name : String) (patterns : PatternState) :
    Bool × FS :=
  if fs.writable (get_control_file scenario_name) then
    (true,
     { fs with
       files := fun p =>
         if p = get_control_file scenario_name then FileContent.record patterns
         else fs.files p })
  else (false, fs)

/-- a file-system operation class, for tracing how a write is performed. -/
inductive FsOp
  | openTruncate (path : String)
  | writeAll (path : String)
  | renameFile (src dst : String)
deriving DecidableEq, Repr

/-- the file-system operations save_patterns in src/app.py performs:
with open(control_file, "w") as f: json.dump(patterns, f) — an in-place
truncating open of the live record path followed by writing the serialization. -/
def save_patterns_ops (scenario_name : String) : List FsOp :=
  [FsOp.openTruncate (get_control_file scenario_name),
   FsOp.writeAll (get_control_file scenario_name)]

/-- spec-side predicate, from the spec words: the write is performed by a
write-then-rename onto the record path (rename target is the record path). -/
def usesWriteThenRename (ops : List FsOp) (path : String) : Bool :=
  ops.any fun op =>
    match op with
    | FsOp.renameFile _ dst => dst = path
    | _ => false

/-- spec-side predicate, from the spec words: the operations truncate the live
record file in place. -/
def truncatesInPlace (ops : List FsOp) (path : String) : Bool :=
  ops.any fun op =>
    match op with
    | FsOp.openTruncate p => p = path
    | _ => false

/-- result of toggle_pattern / set_rpm style API calls. -/
inductive ApiResult
  | okPattern (pattern : String) (enabled : Bool)
  | okRpm (rpm : Int)
  | err (msg : String)
deriving DecidableEq, Repr

/-- toggle_pattern from src/app.py: load, set one key, save. No validation of
either name. -/
def toggle_pattern (fs : FS) (scenario_name pattern_name : String)
    (enabled : Bool) : ApiResult × FS :=
  let patterns := load_patterns fs scenario_name
  let patterns := alSet patterns pattern_name (JVal.b enabled)
  let r := save_patterns fs scenario_name patterns
  if r.1 then (ApiResult.okPattern pattern_name enabled, r.2)
  else (ApiResult.err "Failed to save pattern", r.2)

/-- the clamp in set_rpm: rpm = max(1, min(int(rpm), 1000)). -/
def clampRpm (rpm : Int) : Int := max 1 (min rpm 1000)

/-- set_rpm from src/app.py: clamp to [1,1000], load, set the rpm key, save. -/
def set_rpm (fs : FS) (scenario_name : String) (rpm : Int) : ApiResult × FS :=
  let rpm := clampRpm rpm
  let patterns := load_patterns fs scenario_name
  let patterns := alSet patterns "rpm" (JVal.n rpm)
  let r := save_patterns fs scenario_name patterns
  if r.1 then (ApiResult.okRpm rpm, r.2)
  else (ApiResult.err "Failed to save RPM", r.2)

/-- get_rpm from src/app.py: patterns.get("rpm", 10). -/
def get_rpm (fs : FS) (scenario_name : String) : JVal :=
  (alGet (load_patterns fs scenario_name) "rpm").getD (JVal.n 10)

/-- PROBLEM_PATTERNS from src/app.py: the patterns the dashboard offers per
scenario name. -/
def PROBLEM_PATTERNS : List (String × List String) :=
  [("single", ["slow_response", "high_latency", "error_rate", "timeout"]),
   ("service-tree", ["slow_db", "slow_cache", "auth_failures", "network_latency"]),
   ("astroshop",
    ["slow_productcatalog", "cartservice_errors", "payment_timeout",
     "high_cpu_shipping", "memory_leak_recommendation", "network_latency"])]

/-- a subprocess handle as the supervisor sees it at one instant: its pid and
whether poll() reports it still running (poll() is None). -/
structure Proc where
  pid : Nat
  alive : Bool
deriving DecidableEq, Repr

/-- result of start_scenario from src/app.py. -/
inductive StartResult
  | started (pid : Nat) (scenario : String)
  | errNotFound (scenario : String)
  | errAlreadyRunning (scenario : String)
  | errSpawn (msg : String)
deriving DecidableEq, Repr

/-- result of stop_scenario from src/app.py. -/
inductive StopResult
  | stopped (scenario : String)
  | killed (scenario : String)
  | errNotRunning (scenario : String)
deriving DecidableEq, Repr

/-- outcome of proc.wait(timeout=5) in stop_scenario: the process exits within
the 5-unit grace period, or the wait raises subprocess.TimeoutExpired. -/
inductive WaitOutcome
  | exited
  | timedOut
deriving DecidableEq, Repr

/-- the spawn branch of start_scenario: subprocess.Popen either yields a new
process handle or raises; on success the RunningScenario entry is recorded.
The final Bool reports whether a new OS process was spawned. -/
def startSpawn (m : List (String × Proc)) (name : String) (spawn : Option Proc) :
    StartResult × List (String × Proc) × Bool :=
  match spawn with
  | some p => (StartResult.started p.pid name, alSet m name p, true)
  | none => (StartResult.errSpawn "spawn failed", m, false)

/-- start_scenario from src/app.py. known is the name set returned by
discover_scenarios(); m is the _running_scenarios map read under the lock;
spawn is the Popen outcome. An existing entry only blocks the start when its
process polls as still alive; a dead entry is overwritten. -/
def start_scenario (known : List String) (m : List (String × Proc))
    (name : String) (spawn : Option Proc) :
    StartResult × List (String × Proc) × Bool :=
  if name ∈ known then
    match alGet m name with
    | some p =>
        if p.alive then (StartResult.errAlreadyRunning name, m, false)
        else startSpawn m name spawn
    | none => startSpawn m name spawn
  else (StartResult.errNotFound name, m, false)

/-- stop_scenario from src/app.py: error when no RunningScenario entry exists;
otherwise terminate and wait up to 5 units — on exit the entry is deleted and
"stopped" returned, on timeout the process is killed, the entry deleted and
"killed" returned. -/
def stop_scenario (m : List (String × Proc)) (name : String) (w : WaitOutcome) :
    StopResult × List (String × Proc) :=
  match alGet m name with
  | none => (StopResult.errNotRunning name, m)
  | some _ =>
      match w with
      | WaitOutcome.exited => (StopResult.stopped name, alRemove m name)
      | WaitOutcome.timedOut => (StopResult.killed name, alRemove m name)

/-- get_scenario_status from src/app.py: every discovered name, marked running
with its pid exactly when a RunningScenario entry exists whose process still
polls as alive. -/
def get_scenario_status (discovered : List String)
    (m : List (String × Proc)) : List (String × Bool × Option Nat) :=
  discovered.map fun n =>
    match alGet m n with
    | some p => if p.alive then (n, true, some p.pid) else (n, false, none)
    | none => (n, false, none)

/-- load_patterns from src/scenarios/single.py: same logic as the supervisor's
loader, with the control-file path hard-coded to the single scenario. -/
def single_load_patterns (fs : FS) : PatternState :=
  match fs.files ".scenario_control_single.json" with
  | FileContent.record st => st
  | FileContent.corrupt => []
  | FileContent.absent => []

/-- get_rpm from src/scenarios/single.py: patterns.get("rpm", 10). -/
def single_get_rpm (fs : FS) : JVal :=
  (alGet (single_load_patterns fs) "rpm").getD (JVal.n 10)

/-- the numeric value Python arithmetic sees for a stored JSON value
(bool is an int subtype: True is 1, False is 0). -/
def JVal.toInt : JVal → Int
  | JVal.b true => 1
  | JVal.b false => 0
  | JVal.n v => v

/-- one pass of the while-loop in src/scenarios/single.py main(): the session
body (pattern reload, span, pattern-dependent sleeps) runs inside a
try/except that swallows its exceptions; afterwards — outside that handler —
sleep_time = 60.0 / rpm is computed and slept. A zero rpm read from the
control file makes the division raise ZeroDivisionError, which nothing
catches, so the loop terminates; otherwise the iteration ends by sleeping
60/rpm. -/
def singleLoopStep (fs : FS) : Except String Rat :=
  let rpm := (single_get_rpm fs).toInt
  if rpm = 0 then Except.error "ZeroDivisionError"
  else Except.ok (60 / (rpm : Rat))

/-- an OTEL span attribute value as astroshop sets them: bool, int, string or
a (rational-modelled) float. -/
inductive AVal
  | b (v : Bool)
  | n (v : Int)
  | s (v : String)
  | q (v : Rat)
deriving DecidableEq, Repr

/-- a span produced by the astroshop walk: owning service, span name, the
attributes in the order the code sets them, the constant bounds of the
random.uniform range slept inside the span, and the child spans opened in
the span's context, in call order. -/
structure Span where
  service : String
  name : String
  attrs : List (String × AVal)
  sleepLo : Rat
  sleepHi : Rat
  children : List Span

/-- the random draws one astroshop checkout subtree consumes, passed in
explicitly: the error-decision draws random.random() < p and the attribute
value draws. -/
structure AstroDraws where
  cartError : Bool
  paymentTimeout : Bool
  paymentAmount : Rat
  currencyTo : String
  shippingCountry : String

/-- PROBLEM_PATTERNS from src/scenarios/astroshop.py: the module-level
in-process dict of flags, all initially False. The running simulator consults
this dict, not the control file. -/
def astroshopInitialPatterns : List (String × Bool) :=
  [("slow_productcatalog", false), ("cartservice_errors", false),
   ("payment_timeout", false), ("high_cpu_shipping", false),
   ("memory_leak_recommendation", false), ("network_latency", false)]

/-- simulate_redis_operation from src/scenarios/astroshop.py. -/
def simulate_redis_operation (pp : String → Bool) (operation : String) : Span :=
  { service := "redis", name := "redis." ++ operation,
    attrs := [("db.system", AVal.s "redis"), ("db.operation", AVal.s operation)],
    sleepLo := if pp "network_latency" then 1/1000 + 1/10 else 1/1000,
    sleepHi := if pp "network_latency" then 1/200 + 1/2 else 1/200,
    children := [] }

/-- simulate_cartservice from src/scenarios/astroshop.py: on the
cartservice_errors fault decision the span gets grpc status 2, error
attributes and a sleep in the fixed range [0.01, 0.03], and the function
returns before the Redis backend call — no downstream span. Otherwise the
Redis child span is opened and status 0 set. -/
def simulate_cartservice (pp : String → Bool) (d : AstroDraws)
    (operation : String) : Span :=
  let base := [("rpc.system", AVal.s "grpc"),
               ("rpc.service", AVal.s "hipster.CartService"),
               ("rpc.method", AVal.s operation)]
  if pp "cartservice_errors" && d.cartError then
    { service := "cartservice", name := operation,
      attrs := base ++ [("rpc.grpc.status_code", AVal.n 2),
                        ("error", AVal.b true),
                        ("error.message", AVal.s "Cart service unavailable")],
      sleepLo := 1/100, sleepHi := 3/100, children := [] }
  else
    { service := "cartservice", name := operation,
      attrs := base ++ [("rpc.grpc.status_code", AVal.n 0)],
      sleepLo := 1/100, sleepHi := 3/100,
      children := [simulate_redis_operation pp "GET"] }

/-- simulate_currency from src/scenarios/astroshop.py. -/
def simulate_currency (d : AstroDraws) : Span :=
  { service := "currencyservice", name := "Convert",
    attrs := [("rpc.system", AVal.s "grpc"),
              ("rpc.service", AVal.s "hipster.CurrencyService"),
              ("rpc.method", AVal.s "Convert"),
              ("rpc.grpc.status_code", AVal.n 0),
              ("currency.from", AVal.s "USD"),
              ("currency.to", AVal.s d.currencyTo)],
    sleepLo := 1/200, sleepHi := 3/200, children := [] }

/-- simulate_payment from src/scenarios/astroshop.py: on the payment_timeout
fault decision the span gets grpc status 4 (DEADLINE_EXCEEDED), error
attributes and a sleep in the fixed range [0.5, 2.0], and the function
returns there; otherwise status 0 and a sleep in [0.05, 0.15]. -/
def simulate_payment (pp : String → Bool) (d : AstroDraws) : Span :=
  let base := [("rpc.system", AVal.s "grpc"),
               ("rpc.service", AVal.s "hipster.PaymentService"),
               ("rpc.method", AVal.s "Charge"),
               ("payment.amount", AVal.q d.paymentAmount),
               ("payment.currency", AVal.s "USD")]
  if pp "payment_timeout" && d.paymentTimeout then
    { service := "paymentservice", name := "Charge",
      attrs := base ++ [("rpc.grpc.status_code", AVal.n 4),
                        ("error", AVal.b true),
                        ("error.message", AVal.s "Payment timeout")],
      sleepLo := 1/2, sleepHi := 2, children := [] }
  else
    { service := "paymentservice", name := "Charge",
      attrs := base ++ [("rpc.grpc.status_code", AVal.n 0)],
      sleepLo := 1/20, sleepHi := 3/20, children := [] }

/-- simulate_shipping from src/scenarios/astroshop.py. -/
def simulate_shipping (pp : String → Bool) (d : AstroDraws) : Span :=
  let base := [("rpc.system", AVal.s "grpc"),
               ("rpc.service", AVal.s "hipster.ShippingService"),
               ("rpc.method", AVal.s "GetQuote"),
               ("shipping.country", AVal.s d.shippingCountry)]
  if pp "high_cpu_shipping" then
    { service := "shippingservice", name := "GetQuote",
      attrs := base ++ [("cpu.high", AVal.b true),
                        ("error", AVal.s "high_latency"),
                        ("rpc.grpc.status_code", AVal.n 0)],
      sleepLo := 1/50 + 1, sleepHi := 3/50 + 3, children := [] }
  else
    { service := "shippingservice", name := "GetQuote",
      attrs := base ++ [("rpc.grpc.status_code", AVal.n 0)],
      sleepLo := 1/50, sleepHi := 3/50, children := [] }

/-- simulate_email from src/scenarios/astroshop.py. -/
def simulate_email : Span :=
  { service := "emailservice", name := "SendOrderConfirmation",
    attrs := [("rpc.system", AVal.s "grpc"),
              ("rpc.service", AVal.s "hipster.EmailService"),
              ("rpc.method", AVal.s "SendOrderConfirmation"),
              ("rpc.grpc.status_code", AVal.n 0)],
    sleepLo := 1/100, sleepHi := 3/100, children := [] }

/-- simulate_checkout from src/scenarios/astroshop.py: PlaceOrder opens, in
order and unconditionally, the cart, currency, payment, shipping and email
child spans — each simulated call returns to the orchestrator, so an injected
error in one child never suppresses its siblings. -/
def simulate_checkout (pp : String → Bool) (d : AstroDraws) : Span :=
  { service := "checkoutservice", name := "PlaceOrder",
    attrs := [("rpc.system", AVal.s "grpc"),
              ("rpc.service", AVal.s "hipster.CheckoutService"),
              ("rpc.method", AVal.s "PlaceOrder"),
              ("rpc.grpc.status_code", AVal.n 0)],
    sleepLo := 1/100, sleepHi := 1/50,
    children := [simulate_cartservice pp d "GetCart",
                 simulate_currency d,
                 simulate_payment pp d,
                 simulate_shipping pp d,
                 simulate_email] }

/-- the pattern flags an astroshop session consults: the in-process
PROBLEM_PATTERNS dict pp. src/scenarios/astroshop.py never opens the
scenario control file, so the file-system state fs does not enter. -/
def astroshopSessionPatterns (_fs : FS) (pp : String → Bool) : String → Bool :=
  fun pattern_name => pp pattern_name

/-- the inter-session pacing of the astroshop main loop:
time.sleep(random.uniform(0.2, 1.0)) — a fixed constant range, independent
of the file-system state and in particular of any stored rpm. -/
def astroshopSleepRange (_fs : FS) : Rat × Rat := (1/5, 1)

/-! Helper lemmas about the association-list dict operations. -/

theorem alGet_alSet_same {α : Type} (m : List (String × α)) (k : String) (v : α) :
    alGet (alSet m k v) k = some v := by
  induction m with
  | nil => simp [alSet, alGet]
  | cons hd tl ih =>
      by_cases h : hd.1 = k
      · simp [alSet, alGet, h]
      · simp [alSet, alGet, h, ih]

theorem alGet_alSet_ne {α : Type} (m : List (String × α)) (k k2 : String) (v : α)
    (h : k2 ≠ k) : alGet (alSet m k v) k2 = alGet m k2 := by
  have hk : ¬k = k2 := fun hk => h hk.symm
  induction m with
  | nil => simp [alSet, alGet, hk]
  | cons hd tl ih =>
      by_cases hh : hd.1 = k
      · have h2 : ¬hd.1 = k2 := fun h2 => h (h2 ▸ hh)
        simp [alSet, alGet, hh, h2, hk]
      · by_cases h2 : hd.1 = k2
        · simp [alSet, alGet, hh, h2, h]
        · simp [alSet, alGet, hh, h2, ih]

theorem alGet_alRemove_same {α : Type} (m : List (String × α)) (k : String) :
    alGet (alRemove m k) k = none := by
  induction m with
  | nil => simp [alRemove, alGet]
  | cons hd tl ih =>
      by_cases h : hd.1 = k
      · simp [alRemove, h, ih]
      · simp [alRemove, alGet, h, ih]

/-- helper: the record read back for a scenario right after a successful
save_patterns is exactly the saved dict. -/
theorem load_patterns_save_patterns (fs : FS) (s : String) (p : PatternState)
    (hw : fs.writable (get_control_file s) = true) :
    load_patterns (save_patterns fs s p).2 s = p := by
  simp [save_patterns, hw, load_patterns]

/-! Concrete file systems used to instantiate theorems with hypotheses. -/

/-- an empty, fully writable file system: no control file exists yet. -/
def fsAllWritable : FS :=
  { files := fun _ => FileContent.absent, writable := fun _ => true }

/-- a file system whose every file is present but unparsable. -/
def fsCorrupt : FS :=
  { files := fun _ => FileContent.corrupt, writable := fun _ => true }

/-- a file system holding one valid control record for the single scenario. -/
def fsSeed : FS :=
  { files := fun p =>
      if p = ".scenario_control_single.json" then
        FileContent.record [("slow_response", JVal.b false), ("rpm", JVal.n 42)]
      else FileContent.absent,
    writable := fun _ => true }

/-- Claim C1 (counterexample): the save in src/app.py opens the live control
file with truncation and writes in place; its operation trace contains no
rename, so the save for the single scenario refutes "uses a write-then-rename
and never truncates the record file in place". -/
theorem save_patterns_not_write_then_rename :
    usesWriteThenRename (save_patterns_ops "single") (get_control_file "single") = false
    ∧ truncatesInPlace (save_patterns_ops "single") (get_control_file "single") = true := by
  decide

/-- Claim C1 (amended): for every scenario name, save_patterns writes the
persisted record by truncating the live control file in place and writing the
serialization directly; it performs no write-then-rename, so no atomicity
against a concurrent reader is provided. -/
theorem save_patterns_ops_truncate_in_place (s : String) :
    save_patterns_ops s =
      [FsOp.openTruncate (get_control_file s), FsOp.writeAll (get_control_file s)]
    ∧ usesWriteThenRename (save_patterns_ops s) (get_control_file s) = false
    ∧ truncatesInPlace (save_patterns_ops s) (get_control_file s) = true := by
  refine ⟨rfl, ?_, ?_⟩ <;> simp [save_patterns_ops, usesWriteThenRename, truncatesInPlace]

/-- Claim C4: the stored rpm is always clamped to [1,1000]: for every integer
input, a successful setRate stores exactly the clamp of the input, the clamp
lies in [1,1000], the inputs -5, 5000 and 42 clamp to 1, 1000 and 42, and
reading rpm from a record where it is unset yields the default 10. -/
theorem set_rpm_clamps (fs : FS) (s : String) (r : Int)
    (hw : fs.writable (get_control_file s) = true) :
    (set_rpm fs s r).1 = ApiResult.okRpm (clampRpm r)
    ∧ alGet (load_patterns (set_rpm fs s r).2 s) "rpm" = some (JVal.n (clampRpm r))
    ∧ 1 ≤ clampRpm r ∧ clampRpm r ≤ 1000
    ∧ clampRpm (-5) = 1 ∧ clampRpm 5000 = 1000 ∧ clampRpm 42 = 42
    ∧ (alGet (load_patterns fs s) "rpm" = none → get_rpm fs s = JVal.n 10) := by
  refine ⟨?_, ?_, ?_, ?_, by decide, by decide, by decide, ?_⟩
  · simp [set_rpm, save_patterns, hw]
  · simp [set_rpm, save_patterns, hw, load_patterns, alGet_alSet_same]
  · exact le_max_left 1 _
  · exact max_le (by norm_num) (min_le_right r 1000)
  · intro h
    simp [get_rpm, h]

/-- witness for set_rpm_clamps at a concrete writable file system and
input -5. -/
theorem set_rpm_clamps_witness :
    fsAllWritable.writable (get_control_file "single") = true
    ∧ alGet (load_patterns (set_rpm fsAllWritable "single" (-5)).2 "single") "rpm"
        = some (JVal.n (clampRpm (-5)))
    ∧ clampRpm (-5) = 1
    ∧ get_rpm fsAllWritable "single" = JVal.n 10 := by
  have h := set_rpm_clamps fsAllWritable "single" (-5) rfl
  exact ⟨rfl, h.2.1, h.2.2.2.2.1, h.2.2.2.2.2.2.2 rfl⟩

/-- Claim C5: a single-field change round-trips through save/load without loss
of unrelated keys: after toggle_pattern the changed flag reads back as the new
value and every other key reads back unchanged, and after set_rpm the rpm key
reads back as the clamped new value and every other key reads back unchanged. -/
theorem pattern_state_round_trip (fs : FS) (s k k2 : String) (en : Bool) (r : Int)
    (hw : fs.writable (get_control_file s) = true) :
    alGet (load_patterns (toggle_pattern fs s k en).2 s) k = some (JVal.b en)
    ∧ (k2 ≠ k →
        alGet (load_patterns (toggle_pattern fs s k en).2 s) k2
          = alGet (load_patterns fs s) k2)
    ∧ alGet (load_patterns (set_rpm fs s r).2 s) "rpm" = some (JVal.n (clampRpm r))
    ∧ (k2 ≠ "rpm" →
        alGet (load_patterns (set_rpm fs s r).2 s) k2
          = alGet (load_patterns fs s) k2) := by
  refine ⟨?_, ?_, ?_, ?_⟩
  · simp [toggle_pattern, save_patterns, hw, load_patterns, alGet_alSet_same]
  · intro hne
    simp [toggle_pattern, save_patterns, hw, load_patterns, alGet_alSet_ne _ _ _ _ hne]
  · simp [set_rpm, save_patterns, hw, load_patterns, alGet_alSet_same]
  · intro hne
    simp [set_rpm, save_patterns, hw, load_patterns, alGet_alSet_ne _ _ _ _ hne]

/-- witness for pattern_state_round_trip: toggling the timeout flag on a seeded
single record leaves the stored rpm value 42 untouched. -/
theorem pattern_state_round_trip_witness :
    alGet (load_patterns (toggle_pattern fsSeed "single" "timeout" true).2 "single")
      "timeout" = some (JVal.b true)
    ∧ alGet (load_patterns (toggle_pattern fsSeed "single" "timeout" true).2 "single")
      "rpm" = some (JVal.n 42) := by
  have h := pattern_state_round_trip fsSeed "single" "timeout" "rpm" true 0 rfl
  exact ⟨h.1, (h.2.1 (by decide)).trans (by decide)⟩

/-- Claim C8: load never crashes the caller: for every scenario name, an absent
record and an unparsable record both load as the empty default state, in the
supervisor's loader and in the single simulator's loader alike. -/
theorem load_patterns_never_crashes (fs : FS) (s : String) :
    (fs.files (get_control_file s) = FileContent.absent → load_patterns fs s = [])
    ∧ (fs.files (get_control_file s) = FileContent.corrupt → load_patterns fs s = [])
    ∧ (fs.files ".scenario_control_single.json" = FileContent.absent →
        single_load_patterns fs = [])
    ∧ (fs.files ".scenario_control_single.json" = FileContent.corrupt →
        single_load_patterns fs = []) := by
  refine ⟨fun h => ?_, fun h => ?_, fun h => ?_, fun h => ?_⟩ <;>
    simp [load_patterns, single_load_patterns, h]

/-- witness for load_patterns_never_crashes on the absent and corrupt file
systems. -/
theorem load_patterns_never_crashes_witness :
    load_patterns fsAllWritable "astroshop" = []
    ∧ load_patterns fsCorrupt "astroshop" = []
    ∧ single_load_patterns fsCorrupt = [] := by
  exact ⟨(load_patterns_never_crashes fsAllWritable "astroshop").1 rfl,
         (load_patterns_never_crashes fsCorrupt "astroshop").2.1 rfl,
         (load_patterns_never_crashes fsCorrupt "astroshop").2.2.2 rfl⟩

/-- Claim C10: toggle_pattern validates neither argument: for every pair of
strings — scenario names discovery never returns and pattern names outside the
declared pattern lists included — a writable record makes it report ok and
write the entry into that scenario's control record. -/
theorem toggle_pattern_no_validation (fs : FS) (scenario_name pattern_name : String)
    (enabled : Bool)
    (hw : fs.writable (get_control_file scenario_name) = true) :
    (toggle_pattern fs scenario_name pattern_name enabled).1
      = ApiResult.okPattern pattern_name enabled
    ∧ alGet (load_patterns (toggle_pattern fs scenario_name pattern_name enabled).2
        scenario_name) pattern_name = some (JVal.b enabled) := by
  constructor
  · simp [toggle_pattern, save_patterns, hw]
  · simp [toggle_pattern, save_patterns, hw, load_patterns, alGet_alSet_same]

/-- witness for toggle_pattern_no_validation: a scenario name absent from
PROBLEM_PATTERNS and a pattern name declared for no scenario still get written
and acknowledged. -/
theorem toggle_pattern_no_validation_witness :
    "ghost" ∉ PROBLEM_PATTERNS.map Prod.fst
    ∧ (PROBLEM_PATTERNS.map Prod.snd).all (fun l => decide ("bogus_pattern" ∉ l)) = true
    ∧ (toggle_pattern fsAllWritable "ghost" "bogus_pattern" true).1
        = ApiResult.okPattern "bogus_pattern" true
    ∧ alGet (load_patterns (toggle_pattern fsAllWritable "ghost" "bogus_pattern" true).2
        "ghost") "bogus_pattern" = some (JVal.b true) := by
  have h := toggle_pattern_no_validation fsAllWritable "ghost" "bogus_pattern" true rfl
  exact ⟨by decide, by decide, h.1, h.2⟩

/-- helper: a name with no entry in the running map is reported not running by
every element of get_scenario_status that lists it. -/
theorem get_scenario_status_absent (discovered : List String)
    (m : List (String × Proc)) (name : String) (h : alGet m name = none) :
    ∀ e ∈ get_scenario_status discovered m, e.1 = name → e.2.1 = false := by
  intro e he hn
  obtain ⟨n, hmem, hfn⟩ := List.mem_map.1 he
  subst hfn
  rcases hg : alGet m n with _ | p
  · simp [hg] at hn ⊢
  · by_cases ha : p.alive
    · simp [hg, ha] at hn ⊢
      rw [hn] at hg
      rw [h] at hg
      cases hg
    · simp [hg, ha] at hn ⊢

/-- Claim C2: stop returns the not-running error for every name without a
RunningScenario entry; for every name with an entry, both the graceful path
(process exits within the 5-unit wait) and the timeout path (force kill)
delete the entry, so the name has no entry afterwards and subsequent status
output reports it not running. -/
theorem stop_scenario_contract (m : List (String × Proc)) (name : String)
    (w : WaitOutcome) (discovered : List String) :
    (alGet m name = none →
      stop_scenario m name w = (StopResult.errNotRunning name, m))
    ∧ (∀ p, alGet m name = some p →
        ((stop_scenario m name w).1 = StopResult.stopped name
          ∨ (stop_scenario m name w).1 = StopResult.killed name)
        ∧ (w = WaitOutcome.exited →
            (stop_scenario m name w).1 = StopResult.stopped name)
        ∧ (w = WaitOutcome.timedOut →
            (stop_scenario m name w).1 = StopResult.killed name)
        ∧ alGet (stop_scenario m name w).2 name = none
        ∧ (∀ e ∈ get_scenario_status discovered (stop_scenario m name w).2,
            e.1 = name → e.2.1 = false)) := by
  constructor
  · intro h
    simp [stop_scenario, h]
  · intro p hp
    cases w with
    | exited =>
        refine ⟨Or.inl ?_, fun _ => ?_, fun hw => ?_, ?_, ?_⟩
        · simp [stop_scenario, hp]
        · simp [stop_scenario, hp]
        · cases hw
        · simp [stop_scenario, hp, alGet_alRemove_same]
        · simpa [stop_scenario, hp] using
            get_scenario_status_absent discovered (alRemove m name) name
              (alGet_alRemove_same m name)
    | timedOut =>
        refine ⟨Or.inr ?_, fun hw => ?_, fun _ => ?_, ?_, ?_⟩
        · simp [stop_scenario, hp]
        · cases hw
        · simp [stop_scenario, hp]
        · simp [stop_scenario, hp, alGet_alRemove_same]
        · simpa [stop_scenario, hp] using
            get_scenario_status_absent discovered (alRemove m name) name
              (alGet_alRemove_same m name)

/-- witness for stop_scenario_contract: stopping on an empty map errors;
stopping a present entry removes it on both wait outcomes. -/
theorem stop_scenario_contract_witness :
    stop_scenario ([] : List (String × Proc)) "single" WaitOutcome.exited
      = (StopResult.errNotRunning "single", [])
    ∧ (stop_scenario [("single", Proc.mk 42 true)] "single" WaitOutcome.timedOut).1
      = StopResult.killed "single"
    ∧ alGet (stop_scenario [("single", Proc.mk 42 true)] "single"
        WaitOutcome.exited).2 "single" = none := by
  have h1 := (stop_scenario_contract [] "single" WaitOutcome.exited []).1 rfl
  have h2 := (stop_scenario_contract [("single", Proc.mk 42 true)] "single"
    WaitOutcome.timedOut []).2 (Proc.mk 42 true) (by decide)
  have h3 := (stop_scenario_contract [("single", Proc.mk 42 true)] "single"
    WaitOutcome.exited []).2 (Proc.mk 42 true) (by decide)
  exact ⟨h1, h2.2.2.1 rfl, h3.2.2.2.1⟩

/-- Claim C3: start is idempotent-safe: when the name is known, an entry exists
and its process polls alive at call time, a second start returns the
already-running error, leaves the map unchanged and spawns no process; a name
unknown to discovery makes start fail with not-found, spawn-free as well. -/
theorem start_scenario_idempotent_safe (known : List String)
    (m : List (String × Proc)) (name : String) (spawn : Option Proc) :
    (∀ p, name ∈ known → alGet m name = some p → p.alive = true →
        start_scenario known m name spawn
          = (StartResult.errAlreadyRunning name, m, false))
    ∧ (name ∉ known →
        start_scenario known m name spawn
          = (StartResult.errNotFound name, m, false)) := by
  constructor
  · intro p hk hm ha
    simp [start_scenario, hk, hm, ha]
  · intro hk
    simp [start_scenario, hk]

/-- witness for start_scenario_idempotent_safe: a live entry blocks a second
start; an undiscovered name errors. -/
theorem start_scenario_idempotent_safe_witness :
    start_scenario ["single"] [("single", Proc.mk 7 true)] "single"
      (some (Proc.mk 8 true))
      = (StartResult.errAlreadyRunning "single", [("single", Proc.mk 7 true)], false)
    ∧ start_scenario ["single"] [] "ghost" (some (Proc.mk 8 true))
      = (StartResult.errNotFound "ghost", [], false) := by
  exact ⟨(start_scenario_idempotent_safe ["single"] [("single", Proc.mk 7 true)]
            "single" (some (Proc.mk 8 true))).1 (Proc.mk 7 true) (by decide)
            (by decide) rfl,
         (start_scenario_idempotent_safe ["single"] [] "ghost"
            (some (Proc.mk 8 true))).2 (by decide)⟩

/-- helper: the single simulator's loader and the supervisor's loader read the
same file for the single scenario. -/
theorem single_load_patterns_eq (fs : FS) :
    single_load_patterns fs = load_patterns fs "single" := by
  have h : get_control_file "single" = ".scenario_control_single.json" := by decide
  simp [single_load_patterns, load_patterns, h]

/-- the precondition on the single scenario's control record: its rpm field,
when present, evaluates to at least 1. -/
def rpmPrecondB (fs : FS) : Bool :=
  match alGet (single_load_patterns fs) "rpm" with
  | none => true
  | some v => 1 ≤ v.toInt

/-- a control record for the single scenario carrying rpm = 0, as a writer
other than the supervisor could produce. -/
def fsRpmZero : FS :=
  { files := fun p =>
      if p = ".scenario_control_single.json" then
        FileContent.record [("rpm", JVal.n 0)]
      else FileContent.absent,
    writable := fun _ => true }

/-- Claim C9: the inter-session division 60.0/rpm in the single simulator sits
outside the per-iteration exception handler, takes rpm unvalidated from the
control file, and is nonzero-safe exactly under the precondition that a
present rpm field is at least 1; every supervisor write establishes that
precondition by clamping, while a record carrying rpm = 0 makes the loop step
fail with an uncaught ZeroDivisionError instead of producing a sleep. -/
theorem single_rpm_division_guarded (fs fs2 : FS) (r : Int)
    (h : rpmPrecondB fs = true) :
    singleLoopStep fs = Except.ok (60 / (((single_get_rpm fs).toInt : Int) : Rat))
    ∧ (fs2.writable (get_control_file "single") = true →
        rpmPrecondB (set_rpm fs2 "single" r).2 = true)
    ∧ singleLoopStep fsRpmZero = Except.error "ZeroDivisionError" := by
  refine ⟨?_, ?_, rfl⟩
  · have hne : (single_get_rpm fs).toInt ≠ 0 := by
      unfold rpmPrecondB at h
      unfold single_get_rpm
      rcases hg : alGet (single_load_patterns fs) "rpm" with _ | v
      · simp [hg]
        decide
      · rw [hg] at h
        simp only [Option.getD]
        simp at h
        omega
    simp [singleLoopStep, hne]
  · intro hw
    have hload : single_load_patterns (set_rpm fs2 "single" r).2
        = load_patterns (set_rpm fs2 "single" r).2 "single" :=
      single_load_patterns_eq _
    have hget : alGet (load_patterns (set_rpm fs2 "single" r).2 "single") "rpm"
        = some (JVal.n (clampRpm r)) := by
      simp [set_rpm, save_patterns, hw, load_patterns, alGet_alSet_same]
    have hclamp : (1 : Int) ≤ clampRpm r := le_max_left 1 _
    unfold rpmPrecondB
    rw [hload, hget]
    simpa [JVal.toInt] using hclamp

/-- witness for single_rpm_division_guarded on the seeded record (rpm 42). -/
theorem single_rpm_division_guarded_witness :
    rpmPrecondB fsSeed = true
    ∧ singleLoopStep fsSeed
        = Except.ok (60 / (((single_get_rpm fsSeed).toInt : Int) : Rat))
    ∧ singleLoopStep fsRpmZero = Except.error "ZeroDivisionError" := by
  have h := single_rpm_division_guarded fsSeed fsAllWritable 7 (by decide)
  exact ⟨by decide, h.1, h.2.2⟩

/-- a control record for the astroshop scenario with a pattern enabled and a
live rate of 1000 rpm, as the supervisor API writes it. -/
def fsAstroLive : FS :=
  { files := fun p =>
      if p = ".scenario_control_astroshop.json" then
        FileContent.record [("slow_productcatalog", JVal.b true), ("rpm", JVal.n 1000)]
      else FileContent.absent,
    writable := fun _ => true }

/-- Claim C6 (counterexample): the astroshop simulator neither re-reads the
pattern state from the Fault Pattern Store nor paces by 60/rpm. With the
supervisor having stored slow_productcatalog = true and rpm = 1000 in the
astroshop control record, the session still consults the in-process flags
(reading false), and every inter-session sleep is at least 1/5 — strictly
more than the 60/1000 the claim requires. -/
theorem simulator_pacing_counterexample :
    alGet (load_patterns fsAstroLive "astroshop") "slow_productcatalog"
      = some (JVal.b true)
    ∧ astroshopSessionPatterns fsAstroLive
        (fun n2 => (alGet astroshopInitialPatterns n2).getD false)
        "slow_productcatalog" = false
    ∧ get_rpm fsAstroLive "astroshop" = JVal.n 1000
    ∧ (astroshopSleepRange fsAstroLive).1 = 1/5
    ∧ (60 : Rat) / 1000 < (astroshopSleepRange fsAstroLive).1 := by
  refine ⟨by decide, by decide, by decide, rfl, by norm_num [astroshopSleepRange]⟩

/-- Claim C6 (amended): only the single-scenario simulator has the claimed
pacing: it re-reads the pattern state and rpm from the control file on every
iteration (its loader equals the supervisor-side loader for the single
record) and, whenever the rpm it reads is nonzero, ends the iteration by
sleeping exactly 60/rpm. The astroshop loop instead consults its in-process
flags unchanged (the store never enters) and sleeps a draw from the fixed
range [1/5, 1], independent of the stored rpm. -/
theorem simulator_pacing_amended (fs : FS) (pp : String → Bool) (n : String)
    (h : (single_get_rpm fs).toInt ≠ 0) :
    singleLoopStep fs = Except.ok (60 / (((single_get_rpm fs).toInt : Int) : Rat))
    ∧ single_load_patterns fs = load_patterns fs "single"
    ∧ astroshopSessionPatterns fs pp n = pp n
    ∧ astroshopSleepRange fs = (1/5, 1) := by
  exact ⟨by simp [singleLoopStep, h], single_load_patterns_eq fs, rfl, rfl⟩

/-- witness for simulator_pacing_amended at the seeded single record (rpm 42). -/
theorem simulator_pacing_amended_witness :
    (single_get_rpm fsSeed).toInt ≠ 0
    ∧ singleLoopStep fsSeed
        = Except.ok (60 / (((single_get_rpm fsSeed).toInt : Int) : Rat))
    ∧ astroshopSessionPatterns fsSeed (fun _ => false) "network_latency" = false := by
  have h := simulator_pacing_amended fsSeed (fun _ => false) "network_latency" (by decide)
  exact ⟨by decide, h.1, h.2.2.1⟩

/-- the in-process pattern flags used in the early-return witness: exactly the
two error patterns enabled. -/
def ppErr : String → Bool :=
  fun n2 => (n2 == "cartservice_errors") || (n2 == "payment_timeout")

/-- concrete random draws for the early-return witness: both error decisions
fire. -/
def dErr : AstroDraws :=
  { cartError := true, paymentTimeout := true, paymentAmount := 100,
    currencyTo := "EUR", shippingCountry := "US" }

/-- Claim C7: when an edge's fault decision yields an error, the child span is
marked with the error attribute and a synthetic grpc status code, its sleep
is drawn from a fixed constant range, and traversal does not continue into
that node's downstream edges (the failed cart span has no redis child, unlike
the non-error case); every sibling in checkout's edge list still executes
independently — PlaceOrder always opens all five children in order. -/
theorem early_return_on_error (pp : String → Bool) (d : AstroDraws)
    (hc : pp "cartservice_errors" = true) (hdc : d.cartError = true)
    (hp : pp "payment_timeout" = true) (hdp : d.paymentTimeout = true) :
    ("error", AVal.b true) ∈ (simulate_cartservice pp d "GetCart").attrs
    ∧ ("rpc.grpc.status_code", AVal.n 2) ∈ (simulate_cartservice pp d "GetCart").attrs
    ∧ (simulate_cartservice pp d "GetCart").children = []
    ∧ (simulate_cartservice pp d "GetCart").sleepLo = 1/100
    ∧ (simulate_cartservice pp d "GetCart").sleepHi = 3/100
    ∧ (∀ pp2 d2, (pp2 "cartservice_errors" && d2.cartError) = false →
        (simulate_cartservice pp2 d2 "GetCart").children
          = [simulate_redis_operation pp2 "GET"])
    ∧ ("error", AVal.b true) ∈ (simulate_payment pp d).attrs
    ∧ ("rpc.grpc.status_code", AVal.n 4) ∈ (simulate_payment pp d).attrs
    ∧ (simulate_payment pp d).sleepLo = 1/2
    ∧ (simulate_payment pp d).sleepHi = 2
    ∧ (∀ pp2 d2, (simulate_checkout pp2 d2).children.map Span.service
        = ["cartservice", "currencyservice", "paymentservice",
           "shippingservice", "emailservice"]) := by
  refine ⟨?_, ?_, ?_, ?_, ?_, ?_, ?_, ?_, ?_, ?_, ?_⟩
  · simp [simulate_cartservice, hc, hdc]
  · simp [simulate_cartservice, hc, hdc]
  · simp [simulate_cartservice, hc, hdc]
  · simp [simulate_cartservice, hc, hdc]
  · simp [simulate_cartservice, hc, hdc]
  · intro pp2 d2 h2
    simp [simulate_cartservice, h2]
  · simp [simulate_payment, hp, hdp]
  · simp [simulate_payment, hp, hdp]
  · simp [simulate_payment, hp, hdp]
  · simp [simulate_payment, hp, hdp]
  · intro pp2 d2
    by_cases hca : (pp2 "cartservice_errors" && d2.cartError) = true <;>
      by_cases hpa : (pp2 "payment_timeout" && d2.paymentTimeout) = true <;>
      by_cases hsh : pp2 "high_cpu_shipping" = true <;>
      simp [simulate_checkout, simulate_cartservice, simulate_currency,
        simulate_payment, simulate_shipping, simulate_email, hca, hpa, hsh]

/-- witness for early_return_on_error with both error patterns enabled and
both error draws firing. -/
theorem early_return_on_error_witness :
    (simulate_cartservice ppErr dErr "GetCart").children = []
    ∧ ("error", AVal.b true) ∈ (simulate_cartservice ppErr dErr "GetCart").attrs
    ∧ (simulate_checkout ppErr dErr).children.map Span.service
      = ["cartservice", "currencyservice", "paymentservice",
         "shippingservice", "emailservice"] := by
  have h := early_return_on_error ppErr dErr rfl rfl rfl rfl
  exact ⟨h.2.2.1, h.1, h.2.2.2.2.2.2.2.2.2.2 ppErr dErr⟩

end OtelDemo
